import Mathlib

/-!
# Cardea — verification of the security-telemetry pipeline

Shallow embedding of the Cardea repository's core algorithms, and proofs
about them:

* the center (Oracle) ingest safeguards — de-duplication and per-minute
  rate limiting (`src/oracle/src/oracle_service.py`);
* the deterministic background threat scorer (`src/oracle/src/analytics.py`);
* the KitNET feature extractor and streaming ensemble-autoencoder detector
  (`src/sentry/services/kitnet/src/kitnet_detector.py`);
* the multi-log Zeek reader and its bounded connection cache
  (`src/sentry/services/kitnet/src/network_monitor.py`);
* the edge escalation gates (`src/sentry/services/kitnet/src/main.py`,
  `src/sentry/bridge/src/api_server.py`).

Machine integers are modelled as `Nat`/`Int`, floats as `ℚ` or `ℝ`,
wall-clock time as seconds (`Nat`), and the Redis key-value store as
association lists of keys with expiry times.
-/

namespace Cardea

/-! ## Center ingest: de-duplication and rate limiting

Embedding of `check_abuse_safeguards` and the `POST /api/alerts` handler
`receive_alert` from `src/oracle/src/oracle_service.py`. -/

/-- An alert submission, after pydantic validation (`models.AlertRequest`).
`alert_type` and `severity` are validated against closed enumerations; they
are kept as strings here because the safeguards only concatenate them. -/
structure AlertReq where
  source : String
  alert_type : String
  severity : String
  title : String
  description : String
deriving DecidableEq

/-- `unique_str = f"{alert.source}:{alert.alert_type}:{alert.description}"`. -/
def uniqueStr (a : AlertReq) : String :=
  a.source ++ ":" ++ a.alert_type ++ ":" ++ a.description

/-- `dedupe_key = f"dedupe:{hashlib.md5(unique_str.encode()).hexdigest()}"`.
The MD5 content hash is modelled as the identity on the joined string
(an injective keyed hash). -/
def dedupeKey (a : AlertReq) : String :=
  "dedupe:" ++ uniqueStr a

/-- `DEDUPE_WINDOW_SECONDS = 60`. -/
def DEDUPE_WINDOW_SECONDS : Nat := 60

/-- `GLOBAL_MINUTE_LIMIT = 50`. -/
def GLOBAL_MINUTE_LIMIT : Nat := 50

/-- `minute_key = f"throttle:{datetime.now().strftime('%M')}"`: the key is
the minute-of-hour of the current wall-clock time `t` (in seconds). -/
def minuteKey (t : Nat) : String :=
  "throttle:" ++ toString (t / 60 % 60)

/-- Association-list lookup keyed by strings. -/
def lookupS {β : Type} : List (String × β) → String → Option β
  | [], _ => none
  | (k, v) :: rest, key => if k = key then some v else lookupS rest key

/-- Remove every entry for a key (used to model a Redis overwrite). -/
def eraseS {β : Type} (l : List (String × β)) (key : String) : List (String × β) :=
  l.filter (fun p => p.1 ≠ key)

/-- The Redis state visible to the safeguards: `dedupe:*` string keys with
their absolute expiry times, and `throttle:*` counters with value and
absolute expiry time.  A key is live at time `t` iff `t <` its expiry. -/
structure Redis where
  dedupe : List (String × Nat)
  throttle : List (String × Nat × Nat)
deriving DecidableEq

/-- `GET` on a dedupe key: `True` iff the key exists and has not expired. -/
def Redis.dedupeAlive (r : Redis) (k : String) (t : Nat) : Bool :=
  match lookupS r.dedupe k with
  | some e => t < e
  | none => false

/-- `SETEX dedupe_key DEDUPE_WINDOW_SECONDS "1"` at time `t`. -/
def Redis.setDedupe (r : Redis) (k : String) (t : Nat) : Redis :=
  { r with dedupe := (k, t + DEDUPE_WINDOW_SECONDS) :: eraseS r.dedupe k }

/-- `INCR minute_key` followed by `EXPIRE minute_key 60`, at time `t`:
`INCR` creates the counter at 1 if the key is absent or expired, otherwise
increments it; `EXPIRE` then sets the expiry to `t + 60`.  Returns the
post-increment value, as the pipeline result does. -/
def Redis.incrExpireThrottle (r : Redis) (k : String) (t : Nat) : Nat × Redis :=
  let c := match lookupS r.throttle k with
    | some (c0, e) => if t < e then c0 + 1 else 1
    | none => 1
  (c, { r with throttle := (k, c, t + 60) :: eraseS r.throttle k })

/-- `check_abuse_safeguards` (oracle_service.py lines 38–69).  Returns
`true` iff the alert is a duplicate or exceeds the rate limit, together
with the updated store.  The `GET`/`INCR`/`EXPIRE` run in one pipelined
transaction; the final `SETEX` on the dedupe key is a separate call. -/
def checkAbuseSafeguards (a : AlertReq) (t : Nat) (r : Redis) : Bool × Redis :=
  let dk := dedupeKey a
  let isDup := r.dedupeAlive dk t
  let p := r.incrExpireThrottle (minuteKey t) t
  if isDup then (true, p.2)
  else if GLOBAL_MINUTE_LIMIT < p.1 then (true, p.2)
  else (false, p.2.setDedupe dk t)

/-- A persisted alert row (`database.Alert`), identifying fields only. -/
structure StoredAlert where
  id : Nat
  source : String
  alert_type : String
  severity : String
  title : String
  description : String
deriving DecidableEq

def mkStored (id : Nat) (a : AlertReq) : StoredAlert :=
  ⟨id, a.source, a.alert_type, a.severity, a.title, a.description⟩

/-- Center state: the Redis store, the alerts table, and the id sequence. -/
structure OracleState where
  redis : Redis
  alerts : List StoredAlert
  nextId : Nat
deriving DecidableEq

/-- Result of `POST /api/alerts`: an `AlertResponse` with its `alert_id`
and `status` fields, or an HTTP error raised by the handler. -/
inductive IngestResult where
  | resp (alertId : Nat) (status : String)
  | httpError (code : Nat)
deriving DecidableEq

/-- The `receive_alert` handler (oracle_service.py lines 177–224) at time
`t`.  `dbOk` models whether the database insert succeeds; on failure the
`except` clause raises HTTP 500.  Background scoring is not modelled. -/
def receiveAlert (a : AlertReq) (t : Nat) (dbOk : Bool) (s : OracleState) :
    IngestResult × OracleState :=
  let q := checkAbuseSafeguards a t s.redis
  if q.1 then
    (.resp 0 "filtered_or_throttled", { s with redis := q.2 })
  else if dbOk then
    (.resp s.nextId "received",
      { redis := q.2, alerts := s.alerts ++ [mkStored s.nextId a],
        nextId := s.nextId + 1 })
  else
    (.httpError 500, { s with redis := q.2 })

/-- Process a batch of timestamped submissions sequentially (all inserts
succeeding), collecting the responses. -/
def processAll : List (AlertReq × Nat) → OracleState → List IngestResult × OracleState
  | [], s => ([], s)
  | (a, t) :: rest, s =>
    let q := receiveAlert a t true s
    let qs := processAll rest q.2
    (q.1 :: qs.1, qs.2)

/-- Whether a response reports the alert as admitted. -/
def isReceived : IngestResult → Bool
  | .resp _ st => st == "received"
  | .httpError _ => false

/-- Number of `received` responses in a response list. -/
def countReceived (rs : List IngestResult) : Nat :=
  rs.countP isReceived

def emptyRedis : Redis := ⟨[], []⟩

def initState : OracleState := ⟨emptyRedis, [], 1⟩

/-! ### Basic facts about the safeguard state -/

theorem lookupS_eraseS_ne {β : Type} (l : List (String × β)) {k k' : String}
    (h : k' ≠ k) : lookupS (eraseS l k) k' = lookupS l k' := by
  induction l with
  | nil => rfl
  | cons p rest ih =>
    obtain ⟨pk, pv⟩ := p
    by_cases hpk : pk = k
    · have h1 : eraseS ((pk, pv) :: rest) k = eraseS rest k := by
        simp [eraseS, hpk]
      have h2 : lookupS ((pk, pv) :: rest) k' = lookupS rest k' := by
        have hne : pk ≠ k' := by rw [hpk]; exact fun e => h e.symm
        simp [lookupS, hne]
      rw [h1, ih, h2]
    · have h1 : eraseS ((pk, pv) :: rest) k = (pk, pv) :: eraseS rest k := by
        simp [eraseS, hpk]
      rw [h1]
      simp only [lookupS]
      rw [ih]

theorem dedupe_incrExpire (r : Redis) (m : String) (t : Nat) :
    ((r.incrExpireThrottle m t).2).dedupe = r.dedupe := rfl

theorem throttle_setDedupe (r : Redis) (k : String) (t : Nat) :
    (r.setDedupe k t).throttle = r.throttle := rfl

theorem dedupeAlive_setDedupe_self (r : Redis) (k : String) (t t' : Nat) :
    (r.setDedupe k t).dedupeAlive k t' = decide (t' < t + DEDUPE_WINDOW_SECONDS) := by
  simp [Redis.setDedupe, Redis.dedupeAlive, lookupS]

theorem dedupeAlive_setDedupe_ne (r : Redis) {k k' : String} (h : k' ≠ k)
    (t t' : Nat) :
    (r.setDedupe k t).dedupeAlive k' t' = r.dedupeAlive k' t' := by
  simp only [Redis.setDedupe, Redis.dedupeAlive, lookupS]
  rw [if_neg (fun hk => h hk.symm), lookupS_eraseS_ne _ h]

/-- The safeguard outcome when the alert is a live duplicate. -/
theorem checkAbuse_dup {a : AlertReq} {t : Nat} {r : Redis}
    (hd : r.dedupeAlive (dedupeKey a) t = true) :
    checkAbuseSafeguards a t r = (true, (r.incrExpireThrottle (minuteKey t) t).2) := by
  simp [checkAbuseSafeguards, hd]

/-- The safeguard outcome when the alert is fresh and under the ceiling:
not filtered, and the dedupe key is written for the window. -/
theorem checkAbuse_pass {a : AlertReq} {t : Nat} {r : Redis}
    (hd : r.dedupeAlive (dedupeKey a) t = false)
    (hc : (r.incrExpireThrottle (minuteKey t) t).1 ≤ GLOBAL_MINUTE_LIMIT) :
    checkAbuseSafeguards a t r =
      (false, ((r.incrExpireThrottle (minuteKey t) t).2).setDedupe (dedupeKey a) t) := by
  simp [checkAbuseSafeguards, hd, Nat.not_lt.mpr hc]

/-- **C1.** Two identical submissions: one within the dedupe window of an
admitted first submission is answered `filtered_or_throttled` and not
persisted; one after the window has fully elapsed is admitted and
persisted, like the first (rate ceiling permitting). -/
theorem dedupe_window_correct (a : AlertReq) (s : OracleState) (t1 t2 : Nat)
    (hd : s.redis.dedupeAlive (dedupeKey a) t1 = false)
    (hc : (s.redis.incrExpireThrottle (minuteKey t1) t1).1 ≤ GLOBAL_MINUTE_LIMIT)
    (hc2 : ((receiveAlert a t1 true s).2.redis.incrExpireThrottle
        (minuteKey t2) t2).1 ≤ GLOBAL_MINUTE_LIMIT)
    (hle : t1 ≤ t2) :
    (receiveAlert a t1 true s).1 = .resp s.nextId "received" ∧
    (receiveAlert a t1 true s).2.alerts = s.alerts ++ [mkStored s.nextId a] ∧
    (t2 < t1 + DEDUPE_WINDOW_SECONDS →
      (receiveAlert a t2 true (receiveAlert a t1 true s).2).1 =
        .resp 0 "filtered_or_throttled" ∧
      (receiveAlert a t2 true (receiveAlert a t1 true s).2).2.alerts =
        s.alerts ++ [mkStored s.nextId a]) ∧
    (t1 + DEDUPE_WINDOW_SECONDS ≤ t2 →
      (receiveAlert a t2 true (receiveAlert a t1 true s).2).1 =
        .resp (s.nextId + 1) "received" ∧
      (receiveAlert a t2 true (receiveAlert a t1 true s).2).2.alerts =
        s.alerts ++ [mkStored s.nextId a, mkStored (s.nextId + 1) a]) := by
  have h1 : checkAbuseSafeguards a t1 s.redis =
      (false, ((s.redis.incrExpireThrottle (minuteKey t1) t1).2).setDedupe
        (dedupeKey a) t1) := checkAbuse_pass hd hc
  have hrecv : receiveAlert a t1 true s =
      (.resp s.nextId "received",
        { redis := ((s.redis.incrExpireThrottle (minuteKey t1) t1).2).setDedupe
            (dedupeKey a) t1,
          alerts := s.alerts ++ [mkStored s.nextId a],
          nextId := s.nextId + 1 }) := by
    simp [receiveAlert, h1]
  have halive : ∀ t' : Nat,
      (receiveAlert a t1 true s).2.redis.dedupeAlive (dedupeKey a) t' =
        decide (t' < t1 + DEDUPE_WINDOW_SECONDS) := by
    intro t'
    rw [hrecv]
    exact dedupeAlive_setDedupe_self _ _ _ _
  refine ⟨by rw [hrecv], by rw [hrecv], ?_, ?_⟩
  · intro hwin
    have hdup : (receiveAlert a t1 true s).2.redis.dedupeAlive (dedupeKey a) t2 = true := by
      rw [halive t2]; exact decide_eq_true hwin
    have h2 := checkAbuse_dup (a := a) (t := t2) hdup
    rw [hrecv] at h2 ⊢
    constructor
    · simp [receiveAlert, h2]
    · simp [receiveAlert, h2]
  · intro hpast
    have hfresh : (receiveAlert a t1 true s).2.redis.dedupeAlive (dedupeKey a) t2 = false := by
      rw [halive t2]
      simp [Nat.not_lt.mpr hpast]
    have h2 := checkAbuse_pass (a := a) (t := t2) hfresh hc2
    rw [hrecv] at h2 ⊢
    constructor
    · simp [receiveAlert, h2]
    · simp [receiveAlert, h2]

/-! ### Rate limiting: the per-minute ceiling -/

/-- State of the throttle counter for the wall-clock minute `q` (the
bucket of times `t` with `t / 60 = q`): either the bucket has not been
touched yet (any stored entry expired by the bucket start, as happens to
an entry left by the same minute-of-hour one hour earlier), or it holds
count `c` with an expiry beyond the bucket end. -/
def ThrottleInv (r : Redis) (q c : Nat) : Prop :=
  (c = 0 ∧ ∀ e : Nat × Nat,
      lookupS r.throttle (minuteKey (60 * q)) = some e → e.2 ≤ 60 * q) ∨
  (∃ e : Nat, lookupS r.throttle (minuteKey (60 * q)) = some (c, e) ∧
      60 * (q + 1) ≤ e)

theorem minuteKey_bucket {t q : Nat} (hq : t / 60 = q) :
    minuteKey t = minuteKey (60 * q) := by
  unfold minuteKey
  rw [hq, Nat.mul_div_cancel_left _ (by omega : 0 < 60)]

theorem incr_of_inv {r : Redis} {q c t : Nat} (hq : t / 60 = q)
    (hinv : ThrottleInv r q c) :
    (r.incrExpireThrottle (minuteKey t) t).1 = c + 1 ∧
    ThrottleInv (r.incrExpireThrottle (minuteKey t) t).2 q (c + 1) := by
  have hlo : 60 * q ≤ t := by omega
  have hhi : t < 60 * (q + 1) := by omega
  rw [minuteKey_bucket hq]
  rcases hinv with ⟨hc0, hdead⟩ | ⟨e, hfind, he⟩
  · subst hc0
    have hval : (r.incrExpireThrottle (minuteKey (60 * q)) t).1 = 1 := by
      unfold Redis.incrExpireThrottle
      cases hlk : lookupS r.throttle (minuteKey (60 * q)) with
      | none => simp [hlk]
      | some e =>
        have := hdead e hlk
        simp [hlk, Nat.not_lt.mpr (le_trans this hlo)]
    refine ⟨hval, Or.inr ⟨t + 60, ?_, by omega⟩⟩
    show lookupS ((minuteKey (60 * q),
        (r.incrExpireThrottle (minuteKey (60 * q)) t).1, t + 60) ::
        eraseS r.throttle (minuteKey (60 * q))) (minuteKey (60 * q)) = _
    rw [hval]
    simp [lookupS]
  · have hval : (r.incrExpireThrottle (minuteKey (60 * q)) t).1 = c + 1 := by
      unfold Redis.incrExpireThrottle
      simp [hfind, lt_of_lt_of_le hhi he]
    refine ⟨hval, Or.inr ⟨t + 60, ?_, by omega⟩⟩
    show lookupS ((minuteKey (60 * q),
        (r.incrExpireThrottle (minuteKey (60 * q)) t).1, t + 60) ::
        eraseS r.throttle (minuteKey (60 * q))) (minuteKey (60 * q)) = _
    rw [hval]
    simp [lookupS]

theorem throttleInv_setDedupe {r : Redis} {q c : Nat} {k : String} {t : Nat}
    (h : ThrottleInv r q c) : ThrottleInv (r.setDedupe k t) q c := h

/-- One ingest step increments the bucket counter; once the ceiling is
crossed, the response is always `filtered_or_throttled`. -/
theorem receive_step {a : AlertReq} {t q c : Nat} {s : OracleState}
    (hq : t / 60 = q) (hinv : ThrottleInv s.redis q c) :
    ThrottleInv (receiveAlert a t true s).2.redis q (c + 1) ∧
    (GLOBAL_MINUTE_LIMIT < c + 1 →
      (receiveAlert a t true s).1 = .resp 0 "filtered_or_throttled") := by
  obtain ⟨hval, hinv'⟩ := incr_of_inv hq hinv
  unfold receiveAlert checkAbuseSafeguards
  cases hdup : s.redis.dedupeAlive (dedupeKey a) t with
  | true =>
    refine ⟨?_, fun _ => by simp [hdup]⟩
    simp only [hdup]
    simpa using hinv'
  | false =>
    by_cases hlim : GLOBAL_MINUTE_LIMIT < (s.redis.incrExpireThrottle (minuteKey t) t).1
    · refine ⟨?_, fun _ => by simp [hdup, hlim]⟩
      simp only [hdup, hlim]
      simpa using hinv'
    · constructor
      · simp only [hdup, hlim]
        simp only [Bool.false_eq_true, if_false, if_true]
        simpa using throttleInv_setDedupe hinv'
      · intro habove
        rw [hval] at hlim
        omega

/-- Processing any batch of submissions that fall in one wall-clock minute
admits at most `GLOBAL_MINUTE_LIMIT - c` of them when the bucket counter
already stands at `c`. -/
theorem countReceived_le (batch : List (AlertReq × Nat)) (s : OracleState)
    (q c : Nat) (hq : ∀ p ∈ batch, p.2 / 60 = q)
    (hinv : ThrottleInv s.redis q c) :
    countReceived (processAll batch s).1 ≤ GLOBAL_MINUTE_LIMIT - c := by
  induction batch generalizing s c with
  | nil => simp [processAll, countReceived]
  | cons p rest ih =>
    obtain ⟨a, t⟩ := p
    have hq0 : t / 60 = q := hq _ (List.mem_cons_self _ _)
    have hstep := receive_step (a := a) (s := s) hq0 hinv
    have hrest := ih (receiveAlert a t true s).2 (c + 1)
      (fun p hp => hq _ (List.mem_cons_of_mem _ hp)) hstep.1
    simp only [processAll, countReceived, List.countP_cons] at *
    by_cases hlim : GLOBAL_MINUTE_LIMIT < c + 1
    · rw [hstep.2 hlim]
      have hz : isReceived (.resp 0 "filtered_or_throttled") = false := rfl
      rw [hz]
      simp only [Bool.false_eq_true, if_false]
      omega
    · have hone : (if isReceived (receiveAlert a t true s).1 = true then 1 else 0) ≤ 1 := by
        split <;> omega
      omega

/-- Scenario S4: 60 alerts with distinct descriptions posted within 20
seconds (all inside the wall-clock minute starting at 0). -/
def s4Batch : List (AlertReq × Nat) :=
  (List.range 60).map (fun k =>
    (⟨"bridge", "network_anomaly", "high", "Scenario S4", toString k⟩, k / 3))

/-- Expected S4 responses: the first 50 are admitted (ids 1..50), the
remaining 10 filtered. -/
def s4Expected : List IngestResult :=
  (List.range 60).map (fun k =>
    if k < 50 then .resp (k + 1) "received" else .resp 0 "filtered_or_throttled")

/-- **C2.** Admissions in one wall-clock minute bucket never exceed the
ceiling (from a state in which the bucket's counter has not been touched,
as at every bucket start), and the S4 scenario admits exactly the first
50 of 60 distinct alerts. -/
theorem rate_limit_ceiling (batch : List (AlertReq × Nat)) (s : OracleState)
    (q : Nat) (hq : ∀ p ∈ batch, p.2 / 60 = q)
    (hfresh : ∀ e : Nat × Nat,
      lookupS s.redis.throttle (minuteKey (60 * q)) = some e → e.2 ≤ 60 * q) :
    countReceived (processAll batch s).1 ≤ GLOBAL_MINUTE_LIMIT ∧
    (processAll s4Batch initState).1 = s4Expected := by
  constructor
  · have h := countReceived_le batch s q 0 hq (Or.inl ⟨rfl, hfresh⟩)
    simpa using h
  · decide

/-- Witness for C2: the ceiling bound applied to the concrete S4 batch. -/
theorem rate_limit_ceiling_witness :
    countReceived (processAll s4Batch initState).1 ≤ GLOBAL_MINUTE_LIMIT := by
  have h := rate_limit_ceiling s4Batch initState 0 (by decide)
    (fun e he => by simp [initState, emptyRedis, lookupS] at he)
  exact h.1

/-! ### Atomicity of the safeguard check-and-set

`check_abuse_safeguards` runs `GET dedupe_key; INCR minute_key; EXPIRE`
inside one pipelined transaction (`async with redis_client.pipeline
(transaction=True)`), but issues the `SETEX` marking the alert as seen in
a separate call after the transaction has committed.  A submission is
therefore two atomic units against the store. -/

/-- The pipelined transaction (oracle_service.py lines 50–54) plus the
local decision derived from its results (lines 56–65): returns whether
this submission will be admitted, and the store after the transaction. -/
def pipelineStep (a : AlertReq) (t : Nat) (r : Redis) : Bool × Redis :=
  let isDup := r.dedupeAlive (dedupeKey a) t
  let p := r.incrExpireThrottle (minuteKey t) t
  (!isDup && decide (p.1 ≤ GLOBAL_MINUTE_LIMIT), p.2)

/-- The remainder of a submission after the transaction: for an admitted
alert, the separate `SETEX` of the dedupe key (line 68) followed by the
database insert and response; otherwise just the filtered response. -/
def finishStep (a : AlertReq) (t : Nat) (adm : Bool) (s : OracleState) :
    IngestResult × OracleState :=
  if adm then
    (.resp s.nextId "received",
      { redis := s.redis.setDedupe (dedupeKey a) t,
        alerts := s.alerts ++ [mkStored s.nextId a],
        nextId := s.nextId + 1 })
  else (.resp 0 "filtered_or_throttled", s)

/-- Sanity check of the decomposition: a submission whose two units run
back-to-back behaves exactly like `receive_alert`. -/
theorem receive_eq_pipeline_finish (a : AlertReq) (t : Nat) (s : OracleState) :
    receiveAlert a t true s =
      finishStep a t (pipelineStep a t s.redis).1
        { s with redis := (pipelineStep a t s.redis).2 } := by
  unfold receiveAlert checkAbuseSafeguards pipelineStep finishStep
  by_cases hdup : s.redis.dedupeAlive (dedupeKey a) t
  · simp [hdup]
  · by_cases hlim :
        GLOBAL_MINUTE_LIMIT < (s.redis.incrExpireThrottle (minuteKey t) t).1
    · simp [hdup, hlim, Nat.not_le.mpr hlim]
    · simp [hdup, hlim, Nat.not_lt.mp hlim]

/-- The interleaving in which both transactions execute before either
submission's `SETEX`/insert: transaction of 1, transaction of 2,
completion of 1, completion of 2. -/
def interleavedRun (a1 a2 : AlertReq) (t : Nat) (s : OracleState) :
    (IngestResult × IngestResult) × OracleState :=
  let p1 := pipelineStep a1 t s.redis
  let p2 := pipelineStep a2 t p1.2
  let f1 := finishStep a1 t p1.1 { s with redis := p2.2 }
  let f2 := finishStep a2 t p2.1 f1.2
  ((f1.1, f2.1), f2.2)

def demoAlert : AlertReq :=
  ⟨"bridge", "network_anomaly", "high", "Anomaly", "X"⟩

/-- **C3 (counterexample).** The check-and-set is not a single atomic
transaction: the dedupe write happens outside the pipeline, so two
concurrent identical submissions whose transactions interleave are both
admitted and both persisted. -/
theorem concurrent_dedupe_both_admitted :
    (interleavedRun demoAlert demoAlert 0 initState).1.1 = .resp 1 "received" ∧
    (interleavedRun demoAlert demoAlert 0 initState).1.2 = .resp 2 "received" ∧
    (interleavedRun demoAlert demoAlert 0 initState).2.alerts =
      [mkStored 1 demoAlert, mkStored 2 demoAlert] := by
  decide

/-- The store state carried by any ingest response. -/
theorem receive_redis (a : AlertReq) (t : Nat) (dbOk : Bool) (s : OracleState) :
    (receiveAlert a t dbOk s).2.redis = (checkAbuseSafeguards a t s.redis).2 := by
  unfold receiveAlert
  by_cases h : (checkAbuseSafeguards a t s.redis).1 <;> cases dbOk <;> simp [h]

/-- A filtered safeguard outcome yields the filtered response. -/
theorem receive_of_filtered {a : AlertReq} {t : Nat} {s : OracleState}
    (h : (checkAbuseSafeguards a t s.redis).1 = true) (dbOk : Bool) :
    receiveAlert a t dbOk s =
      (.resp 0 "filtered_or_throttled",
        { s with redis := (checkAbuseSafeguards a t s.redis).2 }) := by
  unfold receiveAlert
  simp [h]

/-- A non-filtered safeguard pass always writes the dedupe key. -/
theorem checkAbuse_false_sets {a : AlertReq} {t : Nat} {r : Redis}
    (h : (checkAbuseSafeguards a t r).1 = false) :
    (checkAbuseSafeguards a t r).2 =
      ((r.incrExpireThrottle (minuteKey t) t).2).setDedupe (dedupeKey a) t := by
  unfold checkAbuseSafeguards at *
  by_cases hdup : r.dedupeAlive (dedupeKey a) t <;>
    by_cases hlim :
        GLOBAL_MINUTE_LIMIT < (r.incrExpireThrottle (minuteKey t) t).1 <;>
      simp [hdup, hlim] at h ⊢

/-- **C3 (amended).** Only the dedupe read and the throttle increment run
in the single pipelined transaction; the dedupe-key write is a separate
operation, so two concurrent identical submissions can both be admitted
(see the counterexample).  When the two submissions do not interleave,
at most one is admitted within the dedupe window. -/
theorem sequential_dedupe_at_most_one (a : AlertReq) (t1 t2 : Nat)
    (s : OracleState) (hwin : t2 < t1 + DEDUPE_WINDOW_SECONDS) :
    countReceived [(receiveAlert a t1 true s).1,
      (receiveAlert a t2 true (receiveAlert a t1 true s).2).1] ≤ 1 := by
  simp only [countReceived, List.countP_cons, List.countP_nil]
  by_cases h1 : (checkAbuseSafeguards a t1 s.redis).1
  · have hr1 : (receiveAlert a t1 true s).1 = .resp 0 "filtered_or_throttled" := by
      rw [receive_of_filtered h1]
    rw [hr1]
    have hz : (if isReceived (IngestResult.resp 0 "filtered_or_throttled") = true
        then 1 else 0) = 0 := rfl
    rw [hz]
    split <;> omega
  · have hset := checkAbuse_false_sets (eq_false_of_ne_true h1)
    have halive : (receiveAlert a t1 true s).2.redis.dedupeAlive (dedupeKey a) t2 = true := by
      rw [receive_redis, hset, dedupeAlive_setDedupe_self]
      exact decide_eq_true hwin
    have hfil : (checkAbuseSafeguards a t2 (receiveAlert a t1 true s).2.redis).1 = true := by
      rw [checkAbuse_dup (a := a) (t := t2) halive]
    have hr2 : (receiveAlert a t2 true (receiveAlert a t1 true s).2).1 =
        .resp 0 "filtered_or_throttled" := by
      rw [receive_of_filtered hfil]
    rw [hr2]
    have hz : (if isReceived (IngestResult.resp 0 "filtered_or_throttled") = true
        then 1 else 0) = 0 := rfl
    rw [hz]
    split <;> omega

/-- Witness for the amended C3 at a concrete input. -/
theorem sequential_dedupe_at_most_one_witness :
    countReceived [(receiveAlert demoAlert 0 true initState).1,
      (receiveAlert demoAlert 10 true (receiveAlert demoAlert 0 true initState).2).1] ≤ 1 :=
  sequential_dedupe_at_most_one demoAlert 0 10 initState (by decide)

/-- **C10.** The dedupe key is written to the store before the alert is
persisted and is not removed when persistence fails: if the safeguards
pass but the database insert raises, the endpoint returns HTTP 500 and
stores no record, yet an identical alert re-submitted within the window
is answered `filtered_or_throttled` — the failed alert is silently
suppressed on retry for the duration of the window. -/
theorem dedupe_persist_failure (a : AlertReq) (s : OracleState) (t1 t2 : Nat)
    (hd : s.redis.dedupeAlive (dedupeKey a) t1 = false)
    (hc : (s.redis.incrExpireThrottle (minuteKey t1) t1).1 ≤ GLOBAL_MINUTE_LIMIT)
    (hwin : t2 < t1 + DEDUPE_WINDOW_SECONDS) :
    (receiveAlert a t1 false s).1 = .httpError 500 ∧
    (receiveAlert a t1 false s).2.alerts = s.alerts ∧
    (receiveAlert a t2 true (receiveAlert a t1 false s).2).1 =
      .resp 0 "filtered_or_throttled" ∧
    (receiveAlert a t2 true (receiveAlert a t1 false s).2).2.alerts = s.alerts := by
  have h1 := checkAbuse_pass hd hc
  have hrecv : receiveAlert a t1 false s =
      (.httpError 500,
        { s with redis := Redis.setDedupe (s.redis.incrExpireThrottle (minuteKey t1) t1).2 (dedupeKey a) t1 }) := by
    unfold receiveAlert
    simp [h1]
  have halive : (receiveAlert a t1 false s).2.redis.dedupeAlive (dedupeKey a) t2 = true := by
    rw [hrecv]
    show (Redis.setDedupe (s.redis.incrExpireThrottle (minuteKey t1) t1).2 (dedupeKey a) t1).dedupeAlive (dedupeKey a) t2 = true
    rw [dedupeAlive_setDedupe_self]
    exact decide_eq_true hwin
  have hfil : (checkAbuseSafeguards a t2 (receiveAlert a t1 false s).2.redis).1 = true := by
    rw [checkAbuse_dup (a := a) (t := t2) halive]
  have hr2 := receive_of_filtered hfil true
  refine ⟨by rw [hrecv], by rw [hrecv], by rw [hr2], ?_⟩
  rw [hr2]
  show (receiveAlert a t1 false s).2.alerts = s.alerts
  rw [hrecv]

/-- Witness for C10 at a concrete input. -/
theorem dedupe_persist_failure_witness :
    (receiveAlert demoAlert 0 false initState).1 = .httpError 500 ∧
    (receiveAlert demoAlert 30 true (receiveAlert demoAlert 0 false initState).2).1 =
      .resp 0 "filtered_or_throttled" := by
  have h := dedupe_persist_failure demoAlert initState 0 30
    (by decide) (by decide) (by decide)
  exact ⟨h.1, h.2.2.1⟩

/-- Witness for C1 at a concrete input (second submission after the
window, so the second-accept branch is exercised). -/
theorem dedupe_window_correct_witness :
    (receiveAlert
        ⟨"bridge", "network_anomaly", "high", "Anomaly", "X"⟩ 0 true initState).1 =
      .resp 1 "received" ∧
    (receiveAlert ⟨"bridge", "network_anomaly", "high", "Anomaly", "X"⟩ 70 true
        (receiveAlert ⟨"bridge", "network_anomaly", "high", "Anomaly", "X"⟩ 0 true
          initState).2).1 = .resp 2 "received" := by
  have h := dedupe_window_correct
    ⟨"bridge", "network_anomaly", "high", "Anomaly", "X"⟩ initState 0 70
    (by decide) (by decide) (by decide) (by decide)
  exact ⟨h.1, (h.2.2.2 (by decide)).1⟩

/-! ## Background scorer: deterministic threat score

Embedding of `ThreatAnalyzer._calculate_threat_score_deterministic` and
its component scores from `src/oracle/src/analytics.py`.  Floats are
modelled as `ℚ`. -/

/-- `models.AlertSeverity` (a closed enumeration, validated by pydantic). -/
inductive AlertSeverity where
  | low | medium | high | critical
deriving DecidableEq

/-- `models.AlertType` (a closed enumeration, validated by pydantic). -/
inductive AlertType where
  | network_anomaly | intrusion_detection | malware_detection
  | suspicious_behavior | data_exfiltration | unauthorized_access
deriving DecidableEq

/-- `self.severity_weights` (analytics.py lines 28–33).  The `.get`
default 0.5 is unreachable: pydantic admits only these four values. -/
def severityWeight : AlertSeverity → ℚ
  | .low => 2/10
  | .medium => 5/10
  | .high => 8/10
  | .critical => 1

/-- `self.alert_type_weights` (analytics.py lines 34–41). -/
def alertTypeWeight : AlertType → ℚ
  | .network_anomaly => 6/10
  | .intrusion_detection => 9/10
  | .malware_detection => 1
  | .suspicious_behavior => 7/10
  | .data_exfiltration => 1
  | .unauthorized_access => 9/10

/-- The fields of `alert.network_context` read by `_calculate_context_score`;
`dest_port` is `None`-able (`.get` without default). -/
structure NetworkContext where
  connection_count : Nat
  dest_port : Option Nat
  external_connection : Bool
deriving DecidableEq

/-- The fields of `alert.raw_data` read by `_calculate_context_score`;
`failed_auth` is scored only when the key is present. -/
structure RawContext where
  bytes_transferred : Nat
  failed_auth : Option Nat
deriving DecidableEq

/-- A stored alert as seen by the scorer.  `network_context` and
`raw_data` are optional (`if alert.network_context:` / `if alert.raw_data:`
skip the empty or missing dict). -/
structure AlertRecord where
  severity : AlertSeverity
  alert_type : AlertType
  network_context : Option NetworkContext
  raw_data : Option RawContext
  indicators : List String
deriving DecidableEq

/-- `_calculate_context_score` (analytics.py lines 255–292). -/
def contextScore (a : AlertRecord) : ℚ :=
  let s1 := match a.network_context with
    | some nc =>
        (if 100 < nc.connection_count then (3 : ℚ)/10 else 0)
        + (match nc.dest_port with
           | some p => if p ∈ ([22, 23, 135, 139, 445, 1433, 3389] : List Nat)
               then (2 : ℚ)/10 else 0
           | none => 0)
        + (if nc.external_connection then (2 : ℚ)/10 else 0)
    | none => 0
  let s2 := match a.raw_data with
    | some rd =>
        (if 1000000 < rd.bytes_transferred then (2 : ℚ)/10 else 0)
        + (match rd.failed_auth with
           | some f => if 5 < f then (3 : ℚ)/10 else 0
           | none => 0)
    | none => 0
  min 1 (s1 + s2)

/-- `_calculate_historical_score` (analytics.py lines 294–319) as a
function of the 24-hour same-type alert count returned by the database
query.  Note the strict comparisons `count > 10`, `count > 5`, `count > 2`. -/
def historicalScore (count : Nat) : ℚ :=
  if 10 < count then 8/10
  else if 5 < count then 6/10
  else if 2 < count then 4/10
  else 2/10

def listStartsWith : List Char → List Char → Bool
  | [], _ => true
  | _ :: _, [] => false
  | p :: ps, c :: cs => p == c && listStartsWith ps cs

def listEndsWith (pat s : List Char) : Bool :=
  listStartsWith pat.reverse s.reverse

/-- Matcher for `.*\.(php|jsp|asp).*\?.*`: some position starts one of
the three extensions and a `?` occurs at or after its end. -/
def webShellAt : List Char → Bool
  | [] => false
  | c :: cs =>
    ((listStartsWith ".php".data (c :: cs)
        || listStartsWith ".jsp".data (c :: cs)
        || listStartsWith ".asp".data (c :: cs))
      && (cs.drop 3).contains '?')
    || webShellAt cs

/-- `_matches_attack_pattern` (analytics.py lines 343–356): the three
case-insensitive regexes `.*\.exe$`, `.*\.(php|jsp|asp).*\?.*` and
`.*[\<\>].*`.  `.` is modelled as any character (the newline exclusion of
`re` is irrelevant to single-line indicators). -/
def matchesAttackPattern (ind : String) : Bool :=
  let low := ind.data.map Char.toLower
  listEndsWith ".exe".data low || webShellAt low
    || low.contains '<' || low.contains '>'

/-- `_calculate_indicator_score` (analytics.py lines 321–341), with the
`threat_patterns` sets (empty in `_load_threat_patterns`) as parameters. -/
def indicatorScore (inds malicious suspicious : List String) : ℚ :=
  let raw := inds.foldl (fun acc i =>
    let acc1 := if i ∈ malicious then acc + 4/10
      else if i ∈ suspicious then acc + 3/10 else acc
    if matchesAttackPattern i then acc1 + 2/10 else acc1) 0
  min 1 raw

/-- `_calculate_threat_score_deterministic` (analytics.py lines 223–253).
The historical database count is passed as `count`. -/
def threatScoreDeterministic (a : AlertRecord) (count : Nat)
    (malicious suspicious : List String) : ℚ :=
  let severity_score := severityWeight a.severity
  let type_score := alertTypeWeight a.alert_type
  let base_score := (severity_score + type_score) / 2
  let context_score := contextScore a
  let historical_score := historicalScore count
  let indicator_score := indicatorScore a.indicators malicious suspicious
  let final_score := base_score * (3/10) + context_score * (3/10)
    + historical_score * (2/10) + indicator_score * (2/10)
  max 0 (min 1 final_score)

/-- The scenario-S5 alert: severity high, data exfiltration,
`{bytes_transferred: 5_000_000, failed_auth: 0}`,
`{dest_port: 443, external_connection: true, connection_count: 150}`,
one IP indicator, empty threat-pattern sets. -/
def s5Alert : AlertRecord :=
  { severity := .high, alert_type := .data_exfiltration,
    network_context := some ⟨150, some 443, true⟩,
    raw_data := some ⟨5000000, some 0⟩,
    indicators := ["45.33.32.156"] }

theorem s5_score_eq : threatScoreDeterministic s5Alert 0 [] [] = 13/25 := by
  have hm : matchesAttackPattern "45.33.32.156" = false := by decide
  norm_num [threatScoreDeterministic, s5Alert, contextScore, historicalScore,
    indicatorScore, severityWeight, alertTypeWeight, List.foldl, hm]

/-- **C8 (counterexample).** At a same-type count of exactly 10 the code
returns 0.6, not the claimed 0.8 (the comparisons are strict), and the S5
example scores 0.52 = 0.3·0.9 + 0.3·0.7 + 0.2·0.2, not 0.54. -/
theorem threat_score_s5_value :
    historicalScore 10 = 6/10 ∧ ¬ historicalScore 10 = 8/10 ∧
    threatScoreDeterministic s5Alert 0 [] [] = 13/25 ∧
    ¬ (13 : ℚ)/25 = 27/50 := by
  refine ⟨by norm_num [historicalScore], by norm_num [historicalScore],
    s5_score_eq, by norm_num⟩

/-- **C8 (amended).** The deterministic score is
`clamp(0.3·base + 0.3·context + 0.2·historical + 0.2·indicator, [0,1])`
with `base = (severity_weight + alert_type_weight)/2`; the historical
component uses strict thresholds (count > 10 → 0.8, > 5 → 0.6, > 2 → 0.4,
else 0.2); the S5 example scores exactly 0.52. -/
theorem threat_score_formula (sev : AlertSeverity) (ty : AlertType)
    (nc : Option NetworkContext) (rd : Option RawContext)
    (inds : List String) (count : Nat) (malicious suspicious : List String) :
    threatScoreDeterministic ⟨sev, ty, nc, rd, inds⟩ count malicious suspicious =
      max 0 (min 1 ((severityWeight sev + alertTypeWeight ty) / 2 * (3/10)
        + contextScore ⟨sev, ty, nc, rd, inds⟩ * (3/10)
        + historicalScore count * (2/10)
        + indicatorScore inds malicious suspicious * (2/10))) ∧
    0 ≤ threatScoreDeterministic ⟨sev, ty, nc, rd, inds⟩ count malicious suspicious ∧
    threatScoreDeterministic ⟨sev, ty, nc, rd, inds⟩ count malicious suspicious ≤ 1 ∧
    (10 < count → historicalScore count = 8/10) ∧
    (5 < count ∧ count ≤ 10 → historicalScore count = 6/10) ∧
    (2 < count ∧ count ≤ 5 → historicalScore count = 4/10) ∧
    (count ≤ 2 → historicalScore count = 2/10) ∧
    threatScoreDeterministic s5Alert 0 [] [] = 13/25 := by
  refine ⟨rfl, le_max_left _ _, max_le (by norm_num) (min_le_left _ _),
    ?_, ?_, ?_, ?_, s5_score_eq⟩
  · intro h
    simp [historicalScore, h]
  · intro h
    unfold historicalScore
    rw [if_neg (by omega), if_pos h.1]
  · intro h
    unfold historicalScore
    rw [if_neg (by omega), if_neg (by omega), if_pos h.1]
  · intro h
    unfold historicalScore
    rw [if_neg (by omega), if_neg (by omega), if_neg (by omega)]

/-- Witness for the amended C8 at concrete inputs exercising the
historical thresholds. -/
theorem threat_score_formula_witness :
    historicalScore 11 = 8/10 ∧ historicalScore 6 = 6/10 ∧
    historicalScore 3 = 4/10 ∧ historicalScore 2 = 2/10 ∧
    0 ≤ threatScoreDeterministic ⟨.low, .network_anomaly, none, none, []⟩ 11 [] [] := by
  have h11 := threat_score_formula .low .network_anomaly none none [] 11 [] []
  have h6 := threat_score_formula .low .network_anomaly none none [] 6 [] []
  have h3 := threat_score_formula .low .network_anomaly none none [] 3 [] []
  have h2 := threat_score_formula .low .network_anomaly none none [] 2 [] []
  exact ⟨h11.2.2.2.1 (by omega), h6.2.2.2.2.1 (by omega),
    h3.2.2.2.2.2.1 (by omega), h2.2.2.2.2.2.2.1 (by omega), h11.2.1⟩

/-! ## KitNET feature extraction

Embedding of `KitNETDetector.extract_features` and its helpers from
`src/sentry/services/kitnet/src/kitnet_detector.py` (lines 96–123 and
226–272).  Floats are modelled as `ℚ`. -/

/-- Decimal digit run, as read by Python `int()`: `none` on an empty run
or any non-digit character. -/
def parseDigits : List Char → Option Nat
  | [] => none
  | cs => cs.foldl (fun acc c =>
      match acc with
      | none => none
      | some n => if c.isDigit then some (n * 10 + (c.toNat - 48)) else none)
      (some 0)

/-- Python `int(s)`: optional sign followed by decimal digits.
(Surrounding whitespace and digit-group underscores, which `int` also
accepts, are not modelled.) -/
def parsePyInt : List Char → Option Int
  | '-' :: rest => (parseDigits rest).map (fun n => -(n : Int))
  | '+' :: rest => (parseDigits rest).map (fun n => (n : Int))
  | cs => (parseDigits cs).map (fun n => (n : Int))

/-- Python `str.split(sep)` for a single-character separator. -/
def splitCharAux (sep : Char) : List Char → List Char → List (List Char)
  | [], acc => [acc.reverse]
  | c :: cs, acc =>
    if c = sep then acc.reverse :: splitCharAux sep cs []
    else splitCharAux sep cs (c :: acc)

def splitDot (s : String) : List (List Char) :=
  splitCharAux '.' s.data []

/-- `_ip_to_int` (kitnet_detector.py lines 226–233): split on `.`, read
the first four parts with `int()` and combine them with shifts; any
exception (missing part or failed parse) yields 0.  Parts beyond the
fourth are ignored and values are not range-checked. -/
def ipToInt (s : String) : Int :=
  match splitDot s with
  | p0 :: p1 :: p2 :: p3 :: _ =>
    match parsePyInt p0, parsePyInt p1, parsePyInt p2, parsePyInt p3 with
    | some a, some b, some c, some d => a * 2^24 + b * 2^16 + c * 2^8 + d
    | _, _, _, _ => 0
  | _ => 0

/-- Whether `_ip_to_int`'s happy path applies: at least four dot-separated
parts whose first four all parse as integers. -/
def ipParses (s : String) : Bool :=
  match splitDot s with
  | p0 :: p1 :: p2 :: p3 :: _ =>
    (parsePyInt p0).isSome && (parsePyInt p1).isSome
      && (parsePyInt p2).isSome && (parsePyInt p3).isSome
  | _ => false

/-- Modelled from the spec: a dotted-quad IPv4 address — exactly four
dot-separated decimal fields, each in 0..255.  Used only to state what a
"non-IPv4 address" is; the source has no such check. -/
def isIPv4 (s : String) : Bool :=
  let parts := splitDot s
  parts.length == 4 && parts.all (fun p =>
    match parseDigits p with
    | some n => n ≤ 255
    | none => false)

def lowerStr (s : String) : String :=
  ⟨s.data.map Char.toLower⟩

/-- `_protocol_to_int` (kitnet_detector.py lines 235–238). -/
def protocolToInt (p : String) : Int :=
  if lowerStr p = "tcp" then 6
  else if lowerStr p = "udp" then 17
  else if lowerStr p = "icmp" then 1
  else 0

/-- The components of a parsed `datetime` read by `_extract_time_features`;
`none` models a timestamp string `datetime.fromisoformat` rejects. -/
structure TimeParts where
  hour : Nat
  weekday : Nat
  second : Nat
deriving DecidableEq

/-- `_extract_time_features` (kitnet_detector.py lines 240–250). -/
def extractTimeFeatures : Option TimeParts → List ℚ
  | some tp => [(tp.hour : ℚ) / 24, (tp.weekday : ℚ) / 6, (tp.second : ℚ) / 59]
  | none => [0, 0, 0]

/-- The `conn_state_map` lookup with default 0.0 (lines 255–261). -/
def connStateScore (cs : String) : ℚ :=
  if cs = "S0" then 1/10 else if cs = "S1" then 2/10
  else if cs = "SF" then 3/10 else if cs = "REJ" then 4/10
  else if cs = "S2" then 5/10 else if cs = "S3" then 6/10
  else if cs = "RSTO" then 7/10 else if cs = "RSTR" then 8/10
  else if cs = "RSTOS0" then 9/10 else if cs = "RSTRH" then 1
  else 0

/-- The normalized conn-record fields read by `extract_features`.
`service` is `None`-able (the normalizer passes `data.get('service')`
through); `conn_state` defaults to `"S0"` at the `.get` when absent. -/
structure PacketData where
  orig_bytes : Int
  resp_bytes : Int
  duration : ℚ
  src_port : Int
  dest_port : Int
  src_ip : String
  dest_ip : String
  protocol : String
  orig_pkts : Int
  resp_pkts : Int
  timestamp : Option TimeParts
  conn_state : String
  service : Option String
deriving DecidableEq

/-- `_extract_zeek_flow_features` (kitnet_detector.py lines 252–272).
The service score `len(service) / 20.0 if service else 0.0` has no upper
clamp. -/
def extractZeekFlowFeatures (pd : PacketData) : List ℚ :=
  let conn_state_score := connStateScore pd.conn_state
  let service_score : ℚ := match pd.service with
    | some s => if s.length = 0 then 0 else (s.length : ℚ) / 20
    | none => 0
  [conn_state_score, service_score,
   min (pd.duration / 3600) 1,
   min (((pd.orig_bytes + pd.resp_bytes : Int) : ℚ) / 1000000) 1]

/-- `extract_features` (kitnet_detector.py lines 96–123): the ordered
17-feature vector. -/
def extractFeatures (pd : PacketData) : List ℚ :=
  [(pd.orig_bytes : ℚ), (pd.resp_bytes : ℚ), pd.duration,
   (pd.src_port : ℚ), (pd.dest_port : ℚ),
   ((ipToInt pd.src_ip : Int) : ℚ), ((ipToInt pd.dest_ip : Int) : ℚ),
   ((protocolToInt pd.protocol : Int) : ℚ),
   (pd.orig_pkts : ℚ), (pd.resp_pkts : ℚ)]
  ++ extractTimeFeatures pd.timestamp
  ++ extractZeekFlowFeatures pd

/-- A failed address parse maps the IP feature to 0. -/
theorem ipToInt_of_not_parses {s : String} (h : ipParses s = false) :
    ipToInt s = 0 := by
  unfold ipToInt
  unfold ipParses at h
  rcases hsp : splitDot s with _ | ⟨p0, _ | ⟨p1, _ | ⟨p2, _ | ⟨p3, rest⟩⟩⟩⟩ <;>
    try rfl
  rw [hsp] at h
  rcases h0 : parsePyInt p0 with _ | n0 <;>
    rcases h1 : parsePyInt p1 with _ | n1 <;>
      rcases h2 : parsePyInt p2 with _ | n2 <;>
        rcases h3 : parsePyInt p3 with _ | n3 <;>
          simp [h0, h1, h2, h3] at h ⊢

/-- The concrete packet refuting the clamp and non-IPv4 sub-claims: a
40-character service name and a five-part source address. -/
def pdUnclamped : PacketData :=
  { orig_bytes := 0, resp_bytes := 0, duration := 0,
    src_port := 0, dest_port := 0,
    src_ip := "1.2.3.4.5", dest_ip := "0.0.0.0", protocol := "tcp",
    orig_pkts := 0, resp_pkts := 0, timestamp := none, conn_state := "S0",
    service := some "aaaaaaaaaaaaaaaaaaaaaaaaaaaaaaaaaaaaaaaa" }

/-- **C9 (counterexample).** Feature 15 is not clamped: a 40-character
service name yields 2 > 1; and the non-IPv4 address `"1.2.3.4.5"` maps
feature 6 to 16909060, not 0. -/
theorem feature_vector_unclamped :
    extractFeatures pdUnclamped =
      [0, 0, 0, 0, 0, 16909060, 0, 6, 0, 0, 0, 0, 0, 1/10, 2, 0, 0] ∧
    ¬ ((2 : ℚ) ≤ 1) ∧ isIPv4 "1.2.3.4.5" = false := by
  have hip : ipToInt "1.2.3.4.5" = 16909060 := by decide
  have hip0 : ipToInt "0.0.0.0" = 0 := by decide
  have hpr : protocolToInt "tcp" = 6 := by decide
  have hlen : ("aaaaaaaaaaaaaaaaaaaaaaaaaaaaaaaaaaaaaaaa" : String).length = 40 := by
    decide
  refine ⟨?_, by norm_num, by decide⟩
  simp only [extractFeatures, extractZeekFlowFeatures, extractTimeFeatures,
    connStateScore, pdUnclamped, hip, hip0, hpr, hlen]
  norm_num

/-- **C9 (amended).** The extractor always produces 17 features in the
fixed order; feature 15 equals the service-name length divided by 20 with
no upper clamp (0 for a missing or empty service); feature 16 equals
`min(duration/3600, 1)`; feature 17 equals `min((orig+resp bytes)/1e6, 1)`;
an address whose first four dot-separated fields do not all parse as
integers maps its IP feature to 0 (extra fields are ignored and octets
are not range-checked, so some non-IPv4 strings map to nonzero values);
a malformed timestamp maps the three time features to 0. -/
theorem feature_vector_spec (pd : PacketData) :
    (extractFeatures pd).length = 17 ∧
    (extractFeatures pd).getD 14 0 = (match pd.service with
      | some s => if s.length = 0 then 0 else (s.length : ℚ) / 20
      | none => 0) ∧
    (extractFeatures pd).getD 15 0 = min (pd.duration / 3600) 1 ∧
    (extractFeatures pd).getD 16 0 =
      min (((pd.orig_bytes + pd.resp_bytes : Int) : ℚ) / 1000000) 1 ∧
    (extractFeatures pd).getD 5 0 = ((ipToInt pd.src_ip : Int) : ℚ) ∧
    (extractFeatures pd).getD 6 0 = ((ipToInt pd.dest_ip : Int) : ℚ) ∧
    (ipParses pd.src_ip = false → (extractFeatures pd).getD 5 0 = 0) ∧
    (pd.timestamp = none →
      (extractFeatures pd).getD 10 0 = 0 ∧
      (extractFeatures pd).getD 11 0 = 0 ∧
      (extractFeatures pd).getD 12 0 = 0) := by
  rcases htp : pd.timestamp with _ | tp <;>
    refine ⟨by simp [extractFeatures, extractZeekFlowFeatures,
        extractTimeFeatures, htp], ?_, ?_, ?_, ?_, ?_, ?_, ?_⟩ <;>
      simp [extractFeatures, extractZeekFlowFeatures, extractTimeFeatures,
        htp, List.getD] <;> intro h <;>
        simp [ipToInt_of_not_parses h]

/-- Witness for the amended C9 at a concrete input with a failing address
parse and a malformed timestamp. -/
theorem feature_vector_spec_witness :
    (extractFeatures pdUnclamped).length = 17 ∧
    (extractFeatures { pdUnclamped with src_ip := "::1" }).getD 5 0 = 0 ∧
    (extractFeatures pdUnclamped).getD 10 0 = 0 := by
  have h1 := feature_vector_spec pdUnclamped
  have h2 := feature_vector_spec { pdUnclamped with src_ip := "::1" }
  exact ⟨h1.1, h2.2.2.2.2.2.2.1 (by decide), (h1.2.2.2.2.2.2.2 rfl).1⟩

/-! ## Edge escalation gates

`KitNETService.process_packets` (`src/sentry/services/kitnet/src/main.py`)
decides whether a scored event becomes an alert; the Bridge handler
`receive_kitnet_alert` (`src/sentry/bridge/src/api_server.py`) decides
whether a received alert is escalated to the Oracle. -/

/-- The gate in `process_packets` (main.py lines 126–128): in DETECT
phase an anomaly is handled only when `anomaly_score >= 1.0` — a
hard-coded literal, although the inline comment reads "Normalized score
\>= threshold" and the configured threshold (`KITNET_THRESHOLD`, default
0.95) is never consulted here. -/
def kitnetEscalates (phase : String) (anomalyScore : ℝ) : Prop :=
  phase = "DETECT" ∧ (1 : ℝ) ≤ anomalyScore

/-- The gate in `receive_kitnet_alert` (api_server.py line 128):
escalate to the Oracle iff the reported score reaches the processor's
threshold. -/
def bridgeEscalates (threshold anomalyScore : ℝ) : Prop :=
  threshold ≤ anomalyScore

/-- Modelled from the spec: the Escalator forwards a DETECT-phase event
iff its normalized score is at least the configured threshold (default
0.95). -/
def specEscalates (threshold anomalyScore : ℝ) : Prop :=
  threshold ≤ anomalyScore

/-- **C5 (code bug).** With the default threshold 0.95 and a DETECT-phase
score of 0.97, the claim (and the spec) requires an alert to be
constructed and escalated — the Bridge gate, which does compare against
the threshold, would pass — but the KitNET gate `anomaly_score >= 1.0`
does not fire, so no alert is constructed and nothing reaches the
Bridge.  The gate's own comment documents the intended comparison
against the threshold. -/
theorem escalation_gate_hardcoded :
    ¬ kitnetEscalates "DETECT" (97/100) ∧
    specEscalates (95/100) (97/100) ∧
    bridgeEscalates (95/100) (97/100) := by
  refine ⟨fun h => ?_, by norm_num [specEscalates], by norm_num [bridgeEscalates]⟩
  have h2 := h.2
  norm_num at h2

/-! ## Multi-log reader: rotation handling and the bounded cache

Embedding of `NetworkMonitor` from
`src/sentry/services/kitnet/src/network_monitor.py`. -/

/-- `NetworkMonitor._process_log_file` (network_monitor.py lines 313–350)
on one poll of one conn log: open, seek to the remembered offset, parse
every line read from there, emit the parsed records to the queue, and
remember `f.tell()`.  The file content is the current byte string;
`parse` stands for `ZeekLogParser.parse_line` at the file's log type
(parsed conn records are modelled by the line text).  There is no
comparison of the file length against the remembered offset: seeking
past the end of a truncated file reads nothing and leaves the offset
unchanged. -/
def processLogFile (parse : List Char → Option String) (content : List Char)
    (pos : Nat) : List String × Nat :=
  if content.length ≤ pos then ([], pos)
  else ((splitCharAux '\n' (content.drop pos) []).filterMap parse, content.length)

/-- Modelled from the spec: the rotation check that
`NetworkMonitor._process_log_file` lacks — "if the file length is less
than the remembered offset, the file has rotated — reset the offset to
0 and log a rotation event". -/
def processLogFileWithReset (parse : List Char → Option String)
    (content : List Char) (pos : Nat) : List String × Nat :=
  if content.length < pos then processLogFile parse content 0
  else processLogFile parse content pos

/-- A line parser with the shape of `ZeekLogParser.parse_line`: blank and
`#`-prefixed lines yield nothing, any other line yields a record. -/
def demoParse (cs : List Char) : Option String :=
  if cs.isEmpty then none
  else if cs.headD ' ' = '#' then none
  else some ⟨cs⟩

/-- A 100-byte log file holding one 99-byte record, and its replacement
after truncation to zero length and the append of one 50-byte record. -/
def oldFile : List Char := List.replicate 99 'a' ++ ['\n']

def newFile : List Char := List.replicate 50 'b'

/-- **C6 (code bug).** The reader consumes the 100-byte file (offset
100); the file is truncated to zero and one 50-byte record appended; the
next poll emits *nothing* and leaves the offset at 100, because the
rotation reset the spec describes is absent from
`NetworkMonitor._process_log_file`.  With the spec's reset, exactly the
one new record is emitted. -/
theorem rotation_not_detected :
    processLogFile demoParse oldFile 0 =
      ([⟨List.replicate 99 'a'⟩], 100) ∧
    processLogFile demoParse newFile 100 = ([], 100) ∧
    processLogFileWithReset demoParse newFile 100 =
      ([⟨List.replicate 50 'b'⟩], 50) := by
  refine ⟨by decide, by decide, by decide⟩

/-! ### The bounded connection cache (C7) -/

/-- `self.cache_max_size = 10000`. -/
def CACHE_MAX_SIZE : Nat := 10000

/-- `_update_connection_context` (network_monitor.py lines 432–452),
tracked by UID key: a record with a fresh UID inserts a new entry at the
end of the (insertion-ordered) dict; an existing UID only mutates its
`ConnectionContext` payload, which is irrelevant to population and
eviction and therefore elided. -/
def updateConnectionContext (cache : List String) (uid : String) : List String :=
  if uid ∈ cache then cache else cache ++ [uid]

/-- `_cleanup_cache` (network_monitor.py lines 467–474): when the
population exceeds the cap, delete the first
`int(self.cache_max_size * 0.2) = 2000` keys in insertion order — 20% of
the *cap*, not of the population. -/
def cleanupCache (cache : List String) : List String :=
  if CACHE_MAX_SIZE < cache.length then cache.drop (CACHE_MAX_SIZE / 5)
  else cache

/-- One iteration of the `_tail_all_logs` loop (network_monitor.py lines
289–311): process the poll cycle's batch of auxiliary-log UIDs, then run
`_cleanup_cache` once. -/
def pollCycle (cache : List String) (uids : List String) : List String :=
  cleanupCache (uids.foldl updateConnectionContext cache)

def runCycles (cycles : List (List String)) (cache : List String) : List String :=
  cycles.foldl pollCycle cache

def uidStr (n : Nat) : String := ⟨List.replicate n 'u'⟩

theorem uidStr_injective : Function.Injective uidStr := by
  intro m n h
  have hlen : (uidStr m).data.length = (uidStr n).data.length := by rw [h]
  simpa [uidStr] using hlen

/-- 12001 pairwise-distinct UIDs arriving in one poll cycle. -/
def floodUids : List String := (List.range 12001).map uidStr

/-- Inserting pairwise-fresh UIDs appends them all. -/
theorem foldl_update_fresh (uids : List String) (cache : List String)
    (hnd : uids.Nodup) (hfresh : ∀ u ∈ uids, u ∉ cache) :
    uids.foldl updateConnectionContext cache = cache ++ uids := by
  induction uids generalizing cache with
  | nil => simp
  | cons u rest ih =>
    have hu : u ∉ cache := hfresh u (by simp)
    have h1 : updateConnectionContext cache u = cache ++ [u] := by
      simp [updateConnectionContext, hu]
    simp only [List.foldl_cons, h1]
    rw [ih (cache ++ [u]) hnd.of_cons ?fresh]
    · simp
    case fresh =>
      intro v hv
      simp only [List.mem_append, List.mem_singleton]
      rintro (hc | he)
      · exact hfresh v (List.mem_cons_of_mem _ hv) hc
      · exact (List.nodup_cons.mp hnd).1 (he ▸ hv)

/-- **C7 (counterexample).** A single poll cycle inserting 12001 fresh
UIDs into an empty cache leaves 10001 entries *after* the cleanup: the
population exceeds the cap even at the one point where eviction runs,
because eviction removes a fixed 2000 entries rather than 20% of the
population. -/
theorem cache_exceeds_cap :
    (pollCycle [] floodUids).length = 10001 ∧ CACHE_MAX_SIZE < 10001 := by
  have hnd : floodUids.Nodup := (List.nodup_range 12001).map uidStr_injective
  have hlen : floodUids.length = 12001 := by simp [floodUids]
  have hfold := foldl_update_fresh floodUids [] hnd (by simp)
  refine ⟨?_, by decide⟩
  unfold pollCycle
  rw [hfold]
  simp only [List.nil_append]
  unfold cleanupCache
  rw [if_pos (show CACHE_MAX_SIZE < floodUids.length by rw [hlen]; decide)]
  rw [List.length_drop, hlen]
  decide

/-- The cache never regrows past the cap at cycle boundaries when each
cycle brings at most 2000 fresh UIDs. -/
theorem length_foldl_update (uids : List String) (cache : List String) :
    (uids.foldl updateConnectionContext cache).length ≤
      cache.length + uids.length := by
  induction uids generalizing cache with
  | nil => simp
  | cons u rest ih =>
    have hstep : (updateConnectionContext cache u).length ≤ cache.length + 1 := by
      unfold updateConnectionContext
      split <;> simp
    calc (rest.foldl updateConnectionContext (updateConnectionContext cache u)).length
        ≤ (updateConnectionContext cache u).length + rest.length := ih _
      _ ≤ cache.length + 1 + rest.length := by omega
      _ = cache.length + (u :: rest).length := by simp; omega

theorem length_cleanup (c : List String)
    (h : c.length ≤ CACHE_MAX_SIZE + CACHE_MAX_SIZE / 5) :
    (cleanupCache c).length ≤ CACHE_MAX_SIZE := by
  have hcap : CACHE_MAX_SIZE = 10000 := rfl
  unfold cleanupCache
  split
  · rw [List.length_drop]
    omega
  · omega

/-- **C7 (amended).** Eviction removes the oldest 20% *of the cap* (2000
entries, in insertion order) and runs once per poll cycle, after the
cycle's records have been processed.  The population measured after each
cycle's cleanup never exceeds the cap provided every cycle introduces at
most 2000 fresh UIDs; a single cycle introducing more than cap + 2000
fresh UIDs leaves the population above the cap even after its cleanup
(see the counterexample). -/
theorem cache_bounded_per_cycle (cycles : List (List String))
    (cache : List String) (hcap : cache.length ≤ CACHE_MAX_SIZE)
    (hbatch : ∀ b ∈ cycles, b.length ≤ CACHE_MAX_SIZE / 5) :
    (runCycles cycles cache).length ≤ CACHE_MAX_SIZE ∧
    (∀ c : List String, CACHE_MAX_SIZE < c.length →
      cleanupCache c = c.drop (CACHE_MAX_SIZE / 5)) := by
  refine ⟨?_, fun c hc => by unfold cleanupCache; rw [if_pos hc]⟩
  induction cycles generalizing cache with
  | nil => simpa [runCycles] using hcap
  | cons b rest ih =>
    have hb : b.length ≤ CACHE_MAX_SIZE / 5 := hbatch b (by simp)
    have hgrow := length_foldl_update b cache
    have hclean : (pollCycle cache b).length ≤ CACHE_MAX_SIZE := by
      unfold pollCycle
      exact length_cleanup _ (by omega)
    have hrest := ih (pollCycle cache b) hclean
      (fun b' hb' => hbatch b' (List.mem_cons_of_mem _ hb'))
    simpa [runCycles] using hrest

/-- Witness for the amended C7 at a concrete input. -/
theorem cache_bounded_per_cycle_witness :
    (runCycles [[uidStr 0], [uidStr 1]] []).length ≤ CACHE_MAX_SIZE :=
  (cache_bounded_per_cycle [[uidStr 0], [uidStr 1]] [] (by decide)
    (by decide)).1

/-! ## KitNET streaming ensemble-autoencoder detector

Embedding of `Autoencoder` and `KitNETDetector` from
`src/sentry/services/kitnet/src/kitnet_detector.py`.  Floats are
modelled as `ℝ` (the activation is `tanh`).  Weight matrices are stored
column-wise: `np.dot(x, W)` is the list of dot products of `x` with the
columns of `W`. -/

noncomputable def dotL (v w : List ℝ) : ℝ :=
  (List.zipWith (fun a b => a * b) v w).sum

/-- `Autoencoder` state: encoder/decoder weight columns, biases, and the
learning rate (0.01 at construction). -/
structure Autoencoder where
  weights_encoder : List (List ℝ)
  weights_decoder : List (List ℝ)
  bias_encoder : List ℝ
  bias_decoder : List ℝ
  learning_rate : ℝ

/-- `Autoencoder.forward` (kitnet_detector.py lines 36–42):
`hidden = tanh(x·We + be)`, `output = tanh(hidden·Wd + bd)`. -/
noncomputable def aeForward (ae : Autoencoder) (x : List ℝ) : List ℝ × List ℝ :=
  let hidden := List.zipWith (fun c b => Real.tanh (dotL x c + b))
    ae.weights_encoder ae.bias_encoder
  let output := List.zipWith (fun c b => Real.tanh (dotL hidden c + b))
    ae.weights_decoder ae.bias_decoder
  (hidden, output)

/-- `np.mean((x - y)**2)` over a single row of `n` features. -/
noncomputable def mse (x y : List ℝ) : ℝ :=
  (List.zipWith (fun a b => (a - b)^2) x y).sum / (x.length : ℝ)

/-- `Autoencoder.predict` (lines 66–69). -/
noncomputable def aePredict (ae : Autoencoder) (x : List ℝ) : ℝ :=
  mse x (aeForward ae x).2

/-- `Autoencoder.train_step` (lines 44–64): one gradient step on the
sample, returning the pre-update reconstruction loss.  The row count
`x.shape[0]` is 1, so `output_error = 2 * (output - x)`. -/
noncomputable def aeTrainStep (ae : Autoencoder) (x : List ℝ) : ℝ × Autoencoder :=
  let hidden := (aeForward ae x).1
  let output := (aeForward ae x).2
  let loss := mse x output
  let output_error := List.zipWith (fun o xi => 2 * (o - xi)) output x
  let output_delta := List.zipWith (fun e o => e * (1 - o^2)) output_error output
  let hidden_error := (List.zip output_delta ae.weights_decoder).foldl
    (fun acc p => List.zipWith (fun u v => u + v) acc (p.2.map (fun v => p.1 * v)))
    (List.replicate hidden.length 0)
  let hidden_delta := List.zipWith (fun e h => e * (1 - h^2)) hidden_error hidden
  (loss,
   { weights_decoder := List.zipWith
       (fun col di => List.zipWith (fun wv hj => wv - ae.learning_rate * (hj * di)) col hidden)
       ae.weights_decoder output_delta,
     bias_decoder := List.zipWith (fun b d => b - ae.learning_rate * d)
       ae.bias_decoder output_delta,
     weights_encoder := List.zipWith
       (fun col hdj => List.zipWith (fun wv xi => wv - ae.learning_rate * (xi * hdj)) col x)
       ae.weights_encoder hidden_delta,
     bias_encoder := List.zipWith (fun b d => b - ae.learning_rate * d)
       ae.bias_encoder hidden_delta,
     learning_rate := ae.learning_rate })

/-- `Autoencoder.__init__` for `input_size` features: hidden size
`max(input_size // 2, 1)`, zero biases, learning rate 0.01; the
`np.random.normal(0, 0.1, ...)` weight draws are supplied by the ambient
randomness source `w` (autoencoder index, matrix id, row, column). -/
noncomputable def mkAutoencoder (w : Nat → Nat → Nat → Nat → ℝ)
    (idx inputSize : Nat) : Autoencoder :=
  let hidden := max (inputSize / 2) 1
  { weights_encoder := (List.range hidden).map (fun j =>
      (List.range inputSize).map (fun i => w idx 0 i j)),
    weights_decoder := (List.range inputSize).map (fun j =>
      (List.range hidden).map (fun i => w idx 1 i j)),
    bias_encoder := List.replicate hidden 0,
    bias_decoder := List.replicate inputSize 0,
    learning_rate := 1/100 }

/-- `_create_feature_groups` (lines 209–224): overlapping groups of size
`max(3, n // 3)` at stride `group_size // 2`, kept when of length ≥ 2;
one full group when none qualify and `n > 0`. -/
def createFeatureGroups (n : Nat) : List (List Nat) :=
  let group_size := max 3 (n / 3)
  let step := group_size / 2
  let starts := List.range' 0 ((n + step - 1) / step) step
  let groups := (starts.map
    (fun i => List.range' i (min (i + group_size) n - i))).filter
    (fun g => 2 ≤ g.length)
  if groups = [] ∧ 0 < n then [List.range n] else groups

/-- The running `StandardScaler`, reduced to its transform parameters. -/
structure Scaler where
  mean : List ℝ
  scale : List ℝ

/-- `StandardScaler.transform`: `(x - mean) / scale` componentwise. -/
noncomputable def Scaler.transform (sc : Scaler) (x : List ℝ) : List ℝ :=
  List.zipWith (fun p s => (p.1 - p.2) / s) (x.zip sc.mean) sc.scale

/-- `StandardScaler.partial_fit` on the single first sample: the mean is
the sample itself, the variance 0, and sklearn's zero-variance handling
sets the scale to 1. -/
def partialFitFirst (x : List ℝ) : Scaler :=
  ⟨x, List.replicate x.length 1⟩

/-- `features_normalized[:, group]`: the feature-group slice. -/
def sliceAt (x : List ℝ) (g : List Nat) : List ℝ :=
  g.map (fun j => x.getD j 0)

/-- `max(scores)` when nonempty (the caller guards the empty case). -/
noncomputable def listMax : List ℝ → ℝ
  | [] => 0
  | [a] => a
  | a :: b :: rest => max a (listMax (b :: rest))

/-- `KitNETDetector` mutable state (lines 74–85). -/
structure KitNETState where
  threshold : ℝ
  autoencoders : List Autoencoder
  scaler : Scaler
  feature_groups : List (List Nat)
  training_mode : Bool
  training_samples : Nat
  max_training_samples : Nat
  anomaly_scores_history : List ℝ

/-- `_initialize_autoencoders` (lines 195–207). -/
noncomputable def initializeAutoencoders (w : Nat → Nat → Nat → Nat → ℝ)
    (s : KitNETState) (numFeatures : Nat) : KitNETState :=
  let groups := createFeatureGroups numFeatures
  let aes := (List.range groups.length).map (fun i =>
    mkAutoencoder w i (groups.getD i []).length)
  { s with feature_groups := groups, autoencoders := aes }

/-- `_train_with_sample` (lines 132–165): bump the sample counter,
initialize the ensemble on the first nonempty sample, partial-fit the
scaler on sample 1, take one training step per autoencoder on its slice,
flip to detection mode at the training cap (model persistence elided),
and return `min(avg_loss / 10, 1)`. -/
noncomputable def trainWithSample (w : Nat → Nat → Nat → Nat → ℝ)
    (s : KitNETState) (x : List ℝ) : ℝ × KitNETState :=
  let s1 : KitNETState := { s with training_samples := s.training_samples + 1 }
  let s2 := if s1.autoencoders.isEmpty = true ∧ 0 < x.length
    then initializeAutoencoders w s1 x.length else s1
  if s2.autoencoders.isEmpty then (0, s2)
  else
    let s3 := if s2.training_samples = 1
      then { s2 with scaler := partialFitFirst x } else s2
    let xn := s3.scaler.transform x
    let stepResults := (s3.autoencoders.zip s3.feature_groups).map
      (fun p => aeTrainStep p.1 (sliceAt xn p.2))
    let total_loss := (stepResults.map Prod.fst).sum
    let newAes := stepResults.map Prod.snd
      ++ s3.autoencoders.drop s3.feature_groups.length
    let s4 : KitNETState := { s3 with autoencoders := newAes }
    let s5 : KitNETState := if s4.max_training_samples ≤ s4.training_samples
      then { s4 with training_mode := false } else s4
    let avg_loss := total_loss / (s5.autoencoders.length : ℝ)
    (min (avg_loss / 10) 1, s5)

/-- `_predict_anomaly` (lines 167–193): per-autoencoder reconstruction
MSE on the slice of the standardized vector, ensemble max, normalized by
5 and clipped at 1, appended to the bounded score history. -/
noncomputable def predictAnomaly (s : KitNETState) (x : List ℝ) :
    ℝ × KitNETState :=
  if s.autoencoders.isEmpty then (0, s)
  else
    let xn := s.scaler.transform x
    let scores := (s.autoencoders.zip s.feature_groups).map
      (fun p => aePredict p.1 (sliceAt xn p.2))
    let ensemble_score := if scores.isEmpty then 0 else listMax scores
    let normalized_score := min (ensemble_score / 5) 1
    let hist := s.anomaly_scores_history ++ [normalized_score]
    let hist2 := if 1000 < hist.length then hist.drop (hist.length - 1000) else hist
    (normalized_score, { s with anomaly_scores_history := hist2 })

/-- `detect_anomaly` (lines 125–130). -/
noncomputable def detectAnomaly (w : Nat → Nat → Nat → Nat → ℝ)
    (s : KitNETState) (x : List ℝ) : ℝ × KitNETState :=
  if s.training_mode then trainWithSample w s x else predictAnomaly s x

theorem sumSq_nonneg : ∀ (x y : List ℝ),
    0 ≤ (List.zipWith (fun a b => (a - b)^2) x y).sum
  | [], _ => by simp
  | _ :: _, [] => by simp
  | a :: x, b :: y => by
    simp only [List.zipWith_cons_cons, List.sum_cons]
    exact add_nonneg (sq_nonneg _) (sumSq_nonneg x y)

theorem mse_nonneg (x y : List ℝ) : 0 ≤ mse x y :=
  div_nonneg (sumSq_nonneg x y) (Nat.cast_nonneg _)

theorem listMax_nonneg : ∀ {l : List ℝ}, (∀ a ∈ l, 0 ≤ a) → 0 ≤ listMax l
  | [], _ => le_refl 0
  | [a], h => h a (by simp)
  | a :: b :: rest, h =>
    le_trans (listMax_nonneg (fun v hv => h v (List.mem_cons_of_mem _ hv)))
      (le_max_right a (listMax (b :: rest)))

theorem stepLoss_sum_nonneg (aes : List Autoencoder)
    (groups : List (List Nat)) (xn : List ℝ) :
    0 ≤ (((aes.zip groups).map
      (fun p => aeTrainStep p.1 (sliceAt xn p.2))).map Prod.fst).sum := by
  apply List.sum_nonneg
  intro a ha
  simp only [List.map_map, List.mem_map, Function.comp] at ha
  obtain ⟨p, hp, rfl⟩ := ha
  exact mse_nonneg _ _

/-- Every score produced by the detector lies in `[0, 1]`. -/
theorem detect_bounds (w : Nat → Nat → Nat → Nat → ℝ)
    (s : KitNETState) (x : List ℝ) :
    0 ≤ (detectAnomaly w s x).1 ∧ (detectAnomaly w s x).1 ≤ 1 := by
  unfold detectAnomaly
  split
  · simp only [trainWithSample]
    split <;> split
    · simp
    · dsimp only
      refine ⟨le_min ?_ zero_le_one, min_le_right _ _⟩
      apply div_nonneg _ (by norm_num)
      apply div_nonneg _ (Nat.cast_nonneg _)
      apply List.sum_nonneg
      intro a ha
      simp only [List.map_map, List.mem_map] at ha
      obtain ⟨p, hp, rfl⟩ := ha
      exact mse_nonneg _ _
    · simp
    · dsimp only
      refine ⟨le_min ?_ zero_le_one, min_le_right _ _⟩
      apply div_nonneg _ (by norm_num)
      apply div_nonneg _ (Nat.cast_nonneg _)
      apply List.sum_nonneg
      intro a ha
      simp only [List.map_map, List.mem_map] at ha
      obtain ⟨p, hp, rfl⟩ := ha
      exact mse_nonneg _ _
  · simp only [predictAnomaly]
    split
    · simp
    · dsimp only
      refine ⟨le_min ?_ zero_le_one, min_le_right _ _⟩
      apply div_nonneg _ (by norm_num)
      split
      · exact le_refl 0
      · apply listMax_nonneg
        intro v hv
        simp only [List.mem_map] at hv
        obtain ⟨p, hp, rfl⟩ := hv
        exact mse_nonneg _ _

/-- Training leaves one updated autoencoder per trained slice and keeps
the untrained tail, so the ensemble size is unchanged. -/
theorem aes_length_preserved (aes : List Autoencoder)
    (groups : List (List Nat)) (xn : List ℝ) :
    (((aes.zip groups).map (fun p => aeTrainStep p.1 (sliceAt xn p.2))).map
        Prod.snd ++ aes.drop groups.length).length = aes.length := by
  simp [List.length_zip]
  omega

/-- **C4.** In DETECT phase the returned score is
`min(max_i MSE_i / 5, 1)`, where `MSE_i` is autoencoder `i`'s
reconstruction mean-squared error on its feature-group slice of the
standardized vector; in TRAIN phase (with the ensemble initialized) it
is `min(avg_loss / 10, 1)` where `avg_loss` is the mean per-autoencoder
training loss on that sample; and every score the detector returns, in
any phase and from any state, lies in `[0, 1]`. -/
theorem detector_score_formula (w : Nat → Nat → Nat → Nat → ℝ)
    (s : KitNETState) (x : List ℝ)
    (hne : s.autoencoders.isEmpty = false) :
    (s.training_mode = false →
      (detectAnomaly w s x).1 =
        min (listMax ((s.autoencoders.zip s.feature_groups).map
          (fun p => mse (sliceAt (s.scaler.transform x) p.2)
            (aeForward p.1 (sliceAt (s.scaler.transform x) p.2)).2)) / 5) 1) ∧
    (s.training_mode = true →
      (detectAnomaly w s x).1 =
        min ((((s.autoencoders.zip s.feature_groups).map
          (fun p => mse
            (sliceAt ((if s.training_samples + 1 = 1 then partialFitFirst x
              else s.scaler).transform x) p.2)
            (aeForward p.1 (sliceAt ((if s.training_samples + 1 = 1
              then partialFitFirst x else s.scaler).transform x) p.2)).2)).sum
          / (s.autoencoders.length : ℝ) / 10)) 1) ∧
    (∀ s' : KitNETState, ∀ x' : List ℝ,
      0 ≤ (detectAnomaly w s' x').1 ∧ (detectAnomaly w s' x').1 ≤ 1) := by
  refine ⟨?_, ?_, fun s' x' => detect_bounds w s' x'⟩
  · intro htm
    simp only [detectAnomaly, htm, Bool.false_eq_true, if_false, predictAnomaly,
      hne]
    by_cases hsc : ((s.autoencoders.zip s.feature_groups).map
        (fun p => aePredict p.1 (sliceAt (s.scaler.transform x) p.2))).isEmpty
    · rw [List.isEmpty_iff] at hsc
      have hz : s.autoencoders.zip s.feature_groups = [] := by
        cases hzz : s.autoencoders.zip s.feature_groups with
        | nil => rfl
        | cons hd tl => rw [hzz] at hsc; simp at hsc
      simp only [hsc, hz, List.isEmpty_nil, if_true, List.map_nil]
      rfl
    · rw [Bool.not_eq_true] at hsc
      simp only [hsc, Bool.false_eq_true, if_false]
      rfl
  · intro htm
    simp only [detectAnomaly, htm, if_true, trainWithSample, hne,
      Bool.false_eq_true, false_and, if_false]
    have hlen : ∀ xn : List ℝ,
        ((((s.autoencoders.zip s.feature_groups).map
          (fun p => aeTrainStep p.1 (sliceAt xn p.2))).map Prod.snd
          ++ s.autoencoders.drop s.feature_groups.length).length : ℝ) =
        (s.autoencoders.length : ℝ) :=
      fun xn => congrArg Nat.cast (aes_length_preserved s.autoencoders
        s.feature_groups xn)
    by_cases hfirst : s.training_samples + 1 = 1 <;>
      simp only [hfirst, if_true, Bool.false_eq_true, if_false] <;>
        split <;>
          · dsimp only
            rw [hlen, List.map_map]
            rfl

noncomputable def demoAE : Autoencoder := mkAutoencoder (fun _ _ _ _ => 0) 0 2

/-- A one-autoencoder detector state in DETECT phase. -/
noncomputable def demoState : KitNETState :=
  { threshold := 95/100, autoencoders := [demoAE],
    scaler := ⟨[0, 0], [1, 1]⟩, feature_groups := [[0, 1]],
    training_mode := false, training_samples := 1000,
    max_training_samples := 1000, anomaly_scores_history := [] }

/-- Witness for C4 at a concrete one-autoencoder state in DETECT phase. -/
theorem detector_score_formula_witness :
    (detectAnomaly (fun _ _ _ _ => 0) demoState [1, 2]).1 =
      min (listMax ((demoState.autoencoders.zip demoState.feature_groups).map
        (fun p => mse (sliceAt (demoState.scaler.transform [1, 2]) p.2)
          (aeForward p.1 (sliceAt (demoState.scaler.transform [1, 2]) p.2)).2)) / 5) 1 ∧
    0 ≤ (detectAnomaly (fun _ _ _ _ => 0) demoState [1, 2]).1 := by
  have h := detector_score_formula (fun _ _ _ _ => 0) demoState [1, 2] rfl
  exact ⟨h.1 rfl, (h.2.2 demoState [1, 2]).1⟩

end Cardea
